/-
Verification of the Arnold USD procedural entry points
(src/procedural/main.cpp of the arnold-usd repository).

The file shallowly embeds the host-glue entry points of the procedural:
`applyProceduralSearchPath`, `procedural_init`, `procedural_num_nodes`,
`procedural_get_node`, `procedural_viewport`, `scene_load`, `scene_write`
and `scene_format_loader`.  External collaborators (the Arnold API, the
pxr USD library, and the repository's `utils` helpers that are outside
the translated sources) are represented by an explicit environment
record `HostEnv` of abstract functions, or by spec-modelled definitions
where noted.  Machine floats (`AtFloat`) are modelled as rationals:
the entry points only copy and compare them.
-/
import Mathlib

set_option autoImplicit false

/-- Handle of a native Arnold node created by the reader (`AtNode *`).
Only its identity matters to the entry points. -/
abbrev AtNodeHandle := Nat

/-- Viewport display mode (`AtProcViewportMode`): `AI_PROC_BOXES = 0`,
`AI_PROC_POINTS`, `AI_PROC_POLYGONS`. -/
inductive ProcViewportMode where
  | boxes
  | points
  | polygons
deriving DecidableEq, Repr

/-- Entries of an `AtParamValueMap` that the translated entry points look up.
Each field is `some v` when the host put an entry of that name (with the
looked-up type) in the map — `AiParamValueMapGet*` then returns true and
stores `v` — and `none` when the lookup fails. -/
structure ParamValueMap where
  frame : Option Rat
  threads : Option Int
  mask : Option Int
  listEntry : Option Bool
  scope : Option String
  all_attributes : Option Bool
deriving DecidableEq, Repr

/-- The viewport reader registry (`UsdArnoldViewportReaderRegistry(mode, params)`):
the entry point only constructs it from the display mode and the parameter
map and installs it on the reader. -/
structure UsdArnoldViewportReaderRegistry where
  mode : ProcViewportMode
  params : Option ParamValueMap
deriving DecidableEq, Repr

/-- The render camera, as consulted by `procedural_init` through
`AiUniverseGetCamera()` / `AiNodeGetFlt(renderCam, "shutter_start" / "shutter_end")`. -/
structure Camera where
  shutter_start : Rat
  shutter_end : Rat
deriving DecidableEq, Repr

/-- The options node of a universe, as consulted by the entry points:
`procedural_searchpath` by `applyProceduralSearchPath` and `frame` by
`scene_load`. -/
structure OptionsNode where
  procedural_searchpath : String
  frame : Rat
deriving DecidableEq, Repr

/-- An Arnold universe (`AtUniverse *`): an identity plus the options node
`AiUniverseGetOptions` returns for it (`none` models a null options node). -/
structure AtUniverse where
  id : Nat
  options : Option OptionsNode
deriving DecidableEq, Repr

/-- The parameters of the `usd` procedural node, declared in `node_parameters`:
`filename`, `object_path`, `frame`, `debug`, `threads`, `overrides`, `cache_id`.
The `overrides` array of strings is `none` when `AiNodeGetArray` returns null. -/
structure ProcNode where
  filename : String
  object_path : String
  frame : Rat
  debug : Bool
  threads : Int
  overrides : Option (List String)
  cache_id : Int
deriving DecidableEq, Repr

/-- The stage source handed to `UsdArnoldReader::Read`: either an in-process
stage-cache id with an object path, or a filename with the (possibly null)
overrides array and an object path. -/
inductive ReadCall where
  | byCache (cache_id : Int) (objectPath : String)
  | byFile (filename : String) (overrides : Option (List String)) (objectPath : String)
deriving DecidableEq, Repr

/-- Modelled from the spec: the observable configuration state of a
`UsdArnoldReader` (its class lives in `reader.h`, which is not among the
translated sources).  Per the spec the reader holds the configuration set
before `Read` — target frame, debug flag, thread count, motion-blur enable
with its [start, end] window, purpose string, type mask, procedural-parent
context, target native universe, convert-primitives flag and a viewport
registry delegate — plus the ordered node list `GetNodes()` populated by
`Read`.  `readCall` records which `Read` overload the entry point invoked
and with which arguments. -/
structure UsdArnoldReader where
  proceduralParent : Option ProcNode
  frame : Rat
  debug : Bool
  threadCount : Int
  motionBlur : Bool
  motionStart : Rat
  motionEnd : Rat
  targetUniverse : Option AtUniverse
  purpose : Option String
  convertPrimitives : Bool
  registry : Option UsdArnoldViewportReaderRegistry
  mask : Option Int
  readCall : Option ReadCall
  nodes : List AtNodeHandle
deriving DecidableEq, Repr

/-- Modelled from the spec: a freshly constructed `UsdArnoldReader` has none
of the configuration setters applied — no procedural parent, no universe, no
purpose, no registry, no mask, motion blur disabled, primitives converted by
default, and an empty node list. -/
def newReader : UsdArnoldReader :=
  { proceduralParent := none
    frame := 0
    debug := false
    threadCount := 0
    motionBlur := false
    motionStart := 0
    motionEnd := 0
    targetUniverse := none
    purpose := none
    convertPrimitives := true
    registry := none
    mask := none
    readCall := none
    nodes := [] }

def UsdArnoldReader.SetProceduralParent (r : UsdArnoldReader) (n : ProcNode) : UsdArnoldReader :=
  { r with proceduralParent := some n }

def UsdArnoldReader.SetFrame (r : UsdArnoldReader) (f : Rat) : UsdArnoldReader :=
  { r with frame := f }

def UsdArnoldReader.SetDebug (r : UsdArnoldReader) (b : Bool) : UsdArnoldReader :=
  { r with debug := b }

def UsdArnoldReader.SetThreadCount (r : UsdArnoldReader) (t : Int) : UsdArnoldReader :=
  { r with threadCount := t }

/-- Three-argument `SetMotionBlur(bool, float start, float end)`. -/
def UsdArnoldReader.SetMotionBlur (r : UsdArnoldReader) (b : Bool) (s e : Rat) : UsdArnoldReader :=
  { r with motionBlur := b, motionStart := s, motionEnd := e }

/-- Modelled from the spec: the one-argument call `SetMotionBlur(false)` uses
the declaration's default window arguments (`reader.h` is not among the
translated sources); only the disabled flag is observable through the claims. -/
def UsdArnoldReader.SetMotionBlurDisabled (r : UsdArnoldReader) : UsdArnoldReader :=
  r.SetMotionBlur false 0 0

def UsdArnoldReader.SetUniverse (r : UsdArnoldReader) (u : AtUniverse) : UsdArnoldReader :=
  { r with targetUniverse := some u }

def UsdArnoldReader.SetPurpose (r : UsdArnoldReader) (p : String) : UsdArnoldReader :=
  { r with purpose := some p }

def UsdArnoldReader.SetConvertPrimitives (r : UsdArnoldReader) (b : Bool) : UsdArnoldReader :=
  { r with convertPrimitives := b }

def UsdArnoldReader.SetRegistry (r : UsdArnoldReader) (reg : UsdArnoldViewportReaderRegistry) : UsdArnoldReader :=
  { r with registry := some reg }

def UsdArnoldReader.SetMask (r : UsdArnoldReader) (m : Int) : UsdArnoldReader :=
  { r with mask := m }

/-- The overload `Read(int cache_id, const std::string &path)`. -/
def UsdArnoldReader.ReadFromCacheId (r : UsdArnoldReader) (cache_id : Int) (objectPath : String) : UsdArnoldReader :=
  { r with readCall := some (ReadCall.byCache cache_id objectPath) }

/-- The overload `Read(const std::string &filename, AtArray *overrides, const std::string &path)`. -/
def UsdArnoldReader.ReadFromFilename (r : UsdArnoldReader) (filename : String)
    (overrides : Option (List String)) (objectPath : String) : UsdArnoldReader :=
  { r with readCall := some (ReadCall.byFile filename overrides objectPath) }

/-- The external collaborators of the entry points: environment-variable
expansion, path join, file accessibility (the repository's `utils` helpers),
`UsdStage::IsSupportedFile`, `TfGetExtension` (pxr USD), and whether
`UsdStage::Open(SdfLayer::CreateNew(name))` yields a non-null stage. -/
structure HostEnv where
  expandEnv : String → String
  pathJoin : String → String → String
  isFileAccessible : String → Bool
  isSupportedFile : String → Bool
  getExtension : String → String
  stageOpenOk : String → Bool

/-- Modelled from the spec: `TokenizePath` from the repository's `utils`
(not among the translated sources).  Per the spec the procedural search
path is a "colon/semicolon-delimited search path": the string is split on
the delimiter characters given (here ":;") into an ordered list of
directories, empty tokens being dropped. -/
def TokenizePath (s : String) : List String :=
  (s.split (fun c => c == ':' || c == ';')).filter (fun t => !t.isEmpty)

/-- The search loop of `applyProceduralSearchPath`: for each directory in
order, join it with the filename and return the first joined path that is
accessible; leave the filename unchanged when none is. -/
def searchPathLoop (ext : HostEnv) : List String → String → String
  | [], filename => filename
  | path :: rest, filename =>
    let fullPath := ext.pathJoin path filename
    if ext.isFileAccessible fullPath then fullPath else searchPathLoop ext rest filename

/-- Embedding of `applyProceduralSearchPath(std::string &filename, const AtUniverse *universe)`:
`optionsNode` is what `AiUniverseGetOptions(universe)` returns (`none` for a
null options node).  The returned string is the final value of the mutated
`filename` argument. -/
def applyProceduralSearchPath (ext : HostEnv) (optionsNode : Option OptionsNode)
    (filename : String) : String :=
  match optionsNode with
  | none => filename
  | some optionsNode =>
    let proceduralPath := optionsNode.procedural_searchpath
    let expandedSearchpath := ext.expandEnv proceduralPath
    let pathList := TokenizePath expandedSearchpath
    if pathList.isEmpty then filename else searchPathLoop ext pathList filename

/-- Embedding of `procedural_init`.  `defaultOptions` is the options node of
the default universe (the call `applyProceduralSearchPath(filename, nullptr)`
resolves the null universe argument to the default universe); `renderCam` is
what `AiUniverseGetCamera()` returns.  The result is the `UsdArnoldReader`
stored in `*user_ptr`; the C++ function then returns 1. -/
def procedural_init (ext : HostEnv) (defaultOptions : Option OptionsNode)
    (renderCam : Option Camera) (node : ProcNode) : UsdArnoldReader :=
  let data := newReader
  let objectPath := node.object_path
  let data :=
    (((data.SetProceduralParent node).SetFrame node.frame).SetDebug node.debug).SetThreadCount
      node.threads
  let data :=
    match renderCam with
    | some renderCam =>
      if renderCam.shutter_start < renderCam.shutter_end then
        let motionStart := renderCam.shutter_start
        let motionEnd := renderCam.shutter_end
        data.SetMotionBlur (decide (motionStart < motionEnd)) motionStart motionEnd
      else
        data.SetMotionBlurDisabled
    | none => data.SetMotionBlurDisabled
  let cache_id := node.cache_id
  if cache_id ≠ 0 then
    data.ReadFromCacheId cache_id objectPath
  else
    let filename := applyProceduralSearchPath ext defaultOptions node.filename
    data.ReadFromFilename filename node.overrides objectPath

/-- Embedding of `procedural_num_nodes`: `user_ptr` is null (`none`) or holds
the reader stored by `procedural_init`. -/
def procedural_num_nodes (user_ptr : Option UsdArnoldReader) : Nat :=
  match user_ptr with
  | some data => data.nodes.length
  | none => 0

/-- Embedding of `procedural_get_node`: the unchecked vector indexing
`data->GetNodes()[i]` is modelled by the checked `List` lookup, `none`
standing for the null return. -/
def procedural_get_node (user_ptr : Option UsdArnoldReader) (i : Nat) : Option AtNodeHandle :=
  match user_ptr with
  | some data => data.nodes[i]?
  | none => none

/-- The check `overrides && AiArrayGetNumElements(overrides) > 0` of
`procedural_viewport`. -/
def hasOverridesOf (overrides : Option (List String)) : Bool :=
  match overrides with
  | some a => decide (0 < a.length)
  | none => false

/-- Whether a viewport call is in "list" sub-mode: the parameter map is
non-null and the bool lookup of "list" succeeds with value true (the local
`listNodes` keeps its initial false otherwise). -/
def listMode (params : Option ParamValueMap) : Bool :=
  match params with
  | some m => m.listEntry.getD false
  | none => false

/-- Embedding of `procedural_viewport`.  `universeArg` is the destination
universe handed to the entry point (a separate universe for viewport
display).  The second component is the reader the call constructed,
configured and ran (`none` on the early-return paths, where no reader
exists). -/
def procedural_viewport (ext : HostEnv) (node : ProcNode) (universeArg : AtUniverse)
    (mode : ProcViewportMode) (params : Option ParamValueMap) :
    Bool × Option UsdArnoldReader :=
  let cache_id := node.cache_id
  let filename0 := node.filename
  let overrides := node.overrides
  let hasOverrides := hasOverridesOf overrides
  if cache_id = 0 ∧ filename0.isEmpty = true ∧ hasOverrides = false then
    (false, none)
  else
    let filename := if cache_id = 0 ∧ filename0.isEmpty = false then
                      applyProceduralSearchPath ext universeArg.options filename0
                    else filename0
    if cache_id = 0 ∧ filename0.isEmpty = false ∧ ext.isSupportedFile filename = false then
      (false, none)
    else
      let reader := newReader
      let objectPath := node.object_path
      let reader := ((reader.SetFrame node.frame).SetUniverse universeArg).SetThreadCount
        node.threads
      let listNodes := listMode params
      let reader :=
        if listNodes = true then
          reader.SetConvertPrimitives false
        else
          (reader.SetRegistry { mode := mode, params := params }).SetPurpose "proxy"
      let reader :=
        if cache_id ≠ 0 then
          reader.ReadFromCacheId cache_id objectPath
        else
          reader.ReadFromFilename filename overrides objectPath
      (true, some reader)

/-- Embedding of `scene_load`.  `universeArg` is the destination universe of
the conversion; `optionsFrame` is `AiNodeGetFlt(AiUniverseGetOptions(), "frame")`.
The second component is the reader the call constructed and ran (`none` when
the call fails before constructing one). -/
def scene_load (ext : HostEnv) (universeArg : AtUniverse) (optionsFrame : Rat)
    (filename : String) (params : Option ParamValueMap) :
    Bool × Option UsdArnoldReader :=
  if ext.isSupportedFile filename = false then
    (false, none)
  else
    let reader := newReader
    let reader := reader.SetUniverse universeArg
    let frame := match params with
                 | some m => m.frame.getD optionsFrame
                 | none => optionsFrame
    let threadCount : Int := match params with
                             | some m => m.threads.getD 0
                             | none => 0
    let reader := match params with
                  | some m =>
                    match m.mask with
                    | some mask => reader.SetMask mask
                    | none => reader
                  | none => reader
    let reader := (reader.SetFrame frame).SetThreadCount threadCount
    let reader := reader.ReadFromFilename filename none ""
    (true, some reader)

/-- Modelled from the spec: the observable configuration of a
`UsdArnoldWriter` (`writer.h` is not among the translated sources) — type
mask, scope sub-path and write-all-attributes flag, each `some` exactly when
`scene_write` called the corresponding setter. -/
structure UsdArnoldWriter where
  mask : Option Int
  scope : Option String
  writeAllAttributes : Option Bool
deriving DecidableEq, Repr

/-- Observable effects of `scene_write`, in program order: the lower-case
warning, the two error diagnostics, the creation of the new layer/stage, the
creation of the writer, and the final save with its info message. -/
inductive WriteEvent where
  | warnLowerCase (name : String)
  | errorUnsupported (name : String)
  | createNewLayer (name : String)
  | errorStageCreate (name : String)
  | createWriter
  | savedScene (name : String)
deriving DecidableEq, Repr

/-- The lower-casing step of `scene_write`: `TfGetExtension` yields the
extension, `basenameLength` is the filename length minus the extension
length, and the characters from position `basenameLength` on are mapped
through `tolower` in place (string positions are modelled as character
counts — on the ASCII filenames involved these coincide with byte counts —
and the in-place transform as a map over the character list). -/
def lowerCaseExtension (ext : HostEnv) (filenameStr : String) : String :=
  let extension := ext.getExtension filenameStr
  let basenameLength := filenameStr.length - extension.length
  String.mk (filenameStr.data.take basenameLength ++
    (filenameStr.data.drop basenameLength).map Char.toLower)

/-- Tail of `scene_write` after the supported-extension check: create the new
layer and stage for `filenameStr`, fail when the stage is null, otherwise
create and configure the writer, write the universe and save.  `pre` holds
diagnostics already emitted by the extension check. -/
def scene_write_proceed (ext : HostEnv) (filenameStr : String)
    (params : Option ParamValueMap) (pre : List WriteEvent) :
    Bool × List WriteEvent × Option UsdArnoldWriter :=
  let events := pre ++ [WriteEvent.createNewLayer filenameStr]
  if ext.stageOpenOk filenameStr = false then
    (false, events ++ [WriteEvent.errorStageCreate filenameStr], none)
  else
    let writer : UsdArnoldWriter := { mask := none, scope := none, writeAllAttributes := none }
    let writer := match params with
                  | some m =>
                    { mask := m.mask, scope := m.scope, writeAllAttributes := m.all_attributes }
                  | none => writer
    (true, events ++ [WriteEvent.createWriter, WriteEvent.savedScene filenameStr], some writer)

/-- Embedding of `scene_write`: test the target filename, on failure
lower-case its extension in place and re-test, then proceed to create the
stage and writer, or return false.  Components: return value, emitted
diagnostics in order, and the writer that was created (`none` when no stage,
layer or writer was created or the stage was null). -/
def scene_write (ext : HostEnv) (filename : String) (params : Option ParamValueMap) :
    Bool × List WriteEvent × Option UsdArnoldWriter :=
  if ext.isSupportedFile filename = true then
    scene_write_proceed ext filename params []
  else
    let filenameStr := lowerCaseExtension ext filename
    if ext.isSupportedFile filenameStr = true then
      scene_write_proceed ext filenameStr params [WriteEvent.warnLowerCase filenameStr]
    else
      (false, [WriteEvent.errorUnsupported filenameStr], none)

/-- The fields of the `AtSceneFormatLib` that `scene_format_loader` fills in. -/
structure SceneFormatLib where
  extensions : List String
  name : String
  description : String
deriving DecidableEq, Repr

/-- Embedding of `scene_format_loader`: registers the USD scene format and
its recognized file extensions. -/
def scene_format_loader : SceneFormatLib :=
  { extensions := [".usd", ".usda", ".usdc"]
    name := "USD"
    description := "Load and write USD files in Arnold" }

/-- The search loop returns the join of the first directory whose join with
the filename is accessible, and the filename itself when there is none. -/
theorem searchPathLoop_eq_find (ext : HostEnv) (l : List String) (filename : String) :
    searchPathLoop ext l filename =
      match l.find? (fun d => ext.isFileAccessible (ext.pathJoin d filename)) with
      | some d => ext.pathJoin d filename
      | none => filename := by
  induction l with
  | nil => simp [searchPathLoop]
  | cons p rest ih =>
    by_cases h : ext.isFileAccessible (ext.pathJoin p filename) = true
    · simp [searchPathLoop, List.find?_cons_of_pos, h]
    · rw [searchPathLoop]
      simp only [h]
      rw [List.find?_cons_of_neg _ (by simp [h]), if_neg (by simp [h])]
      exact ih

/-- C3: search-path resolution expands environment variables in the options
node's `procedural_searchpath`, splits it on the delimiters ':' and ';' into
an ordered list of directories, joins each directory with the filename in
order, and replaces the filename with the first joined path naming an
accessible file; when no candidate is accessible, or the universe has no
options node, or the search path is empty, the filename is unchanged. -/
theorem applyProceduralSearchPath_firstMatch (ext : HostEnv)
    (optionsNode : Option OptionsNode) (filename : String) :
    applyProceduralSearchPath ext optionsNode filename =
      match optionsNode with
      | none => filename
      | some o =>
        match (TokenizePath (ext.expandEnv o.procedural_searchpath)).find?
            (fun d => ext.isFileAccessible (ext.pathJoin d filename)) with
        | some d => ext.pathJoin d filename
        | none => filename := by
  cases optionsNode with
  | none => rfl
  | some o =>
    show (if (TokenizePath (ext.expandEnv o.procedural_searchpath)).isEmpty then filename
          else searchPathLoop ext (TokenizePath (ext.expandEnv o.procedural_searchpath)) filename) = _
    cases hl : TokenizePath (ext.expandEnv o.procedural_searchpath) with
    | nil => simp [hl]
    | cons p rest => simp [hl, searchPathLoop_eq_find]

/-- The motion-blur enable flag that `procedural_init` hands to the reader. -/
def initMotionBlurOn (renderCam : Option Camera) : Bool :=
  match renderCam with
  | some c => decide (c.shutter_start < c.shutter_end)
  | none => false

/-- The motion-blur window start that `procedural_init` hands to the reader. -/
def initMotionStart (renderCam : Option Camera) : Rat :=
  match renderCam with
  | some c => if c.shutter_start < c.shutter_end then c.shutter_start else 0
  | none => 0

/-- The motion-blur window end that `procedural_init` hands to the reader. -/
def initMotionEnd (renderCam : Option Camera) : Rat :=
  match renderCam with
  | some c => if c.shutter_start < c.shutter_end then c.shutter_end else 0
  | none => 0

/-- Normal form of the reader state that `procedural_init` builds. -/
theorem procedural_init_eq (ext : HostEnv) (defaultOptions : Option OptionsNode)
    (renderCam : Option Camera) (node : ProcNode) :
    procedural_init ext defaultOptions renderCam node =
      { proceduralParent := some node
        frame := node.frame
        debug := node.debug
        threadCount := node.threads
        motionBlur := initMotionBlurOn renderCam
        motionStart := initMotionStart renderCam
        motionEnd := initMotionEnd renderCam
        targetUniverse := none
        purpose := none
        convertPrimitives := true
        registry := none
        mask := none
        readCall := some
          (if node.cache_id ≠ 0 then ReadCall.byCache node.cache_id node.object_path
           else
             ReadCall.byFile (applyProceduralSearchPath ext defaultOptions node.filename)
               node.overrides node.object_path)
        nodes := [] } := by
  cases renderCam with
  | none =>
    by_cases h : node.cache_id ≠ 0 <;>
      simp [procedural_init, h, newReader, initMotionBlurOn, initMotionStart, initMotionEnd,
        UsdArnoldReader.SetProceduralParent, UsdArnoldReader.SetFrame, UsdArnoldReader.SetDebug,
        UsdArnoldReader.SetThreadCount, UsdArnoldReader.SetMotionBlurDisabled,
        UsdArnoldReader.SetMotionBlur, UsdArnoldReader.ReadFromCacheId,
        UsdArnoldReader.ReadFromFilename]
  | some c =>
    by_cases hc : c.shutter_start < c.shutter_end <;>
    by_cases h : node.cache_id ≠ 0 <;>
      simp [procedural_init, hc, h, newReader, initMotionBlurOn, initMotionStart, initMotionEnd,
        UsdArnoldReader.SetProceduralParent, UsdArnoldReader.SetFrame, UsdArnoldReader.SetDebug,
        UsdArnoldReader.SetThreadCount, UsdArnoldReader.SetMotionBlurDisabled,
        UsdArnoldReader.SetMotionBlur, UsdArnoldReader.ReadFromCacheId,
        UsdArnoldReader.ReadFromFilename]

/-- C1: when the node's `cache_id` is non-zero, `procedural_init` invokes
`Read` with that cache handle (and the object path), and the filename is
never consulted — the invoked read call is unchanged under any replacement
of the node's filename; when `cache_id` is zero, `Read` is invoked with the
node's filename after search-path resolution and the node's overrides
array. -/
theorem procedural_init_cache_vs_filename (ext : HostEnv)
    (defaultOptions : Option OptionsNode) (renderCam : Option Camera) (node : ProcNode) :
    (procedural_init ext defaultOptions renderCam node).readCall =
      some
        (if node.cache_id ≠ 0 then ReadCall.byCache node.cache_id node.object_path
         else
           ReadCall.byFile (applyProceduralSearchPath ext defaultOptions node.filename)
             node.overrides node.object_path) ∧
    (node.cache_id ≠ 0 → ∀ f : String,
      (procedural_init ext defaultOptions renderCam { node with filename := f }).readCall =
        (procedural_init ext defaultOptions renderCam node).readCall) := by
  refine ⟨by rw [procedural_init_eq], fun h f => ?_⟩
  simp [procedural_init_eq, h]

/-- Host environment for concrete evaluations: identity expansion, slash
path join, no accessible files, no supported files, empty extensions, and
failing stage creation. -/
def hostW : HostEnv :=
  { expandEnv := fun s => s
    pathJoin := fun d f => d ++ "/" ++ f
    isFileAccessible := fun _ => false
    isSupportedFile := fun _ => false
    getExtension := fun _ => ""
    stageOpenOk := fun _ => false }

/-- Concrete procedural node with a non-zero cache id. -/
def nodeCacheW : ProcNode :=
  { filename := "scene.usd"
    object_path := "/root"
    frame := 1
    debug := false
    threads := 2
    overrides := none
    cache_id := 7 }

/-- Witness for C1 at a concrete node with cache id 7. -/
theorem procedural_init_cache_vs_filename_witness :
    (procedural_init hostW none none { nodeCacheW with filename := "other.usd" }).readCall =
      (procedural_init hostW none none nodeCacheW).readCall :=
  (procedural_init_cache_vs_filename hostW none none nodeCacheW).2 (by decide) "other.usd"

/-- C2: `procedural_init` enables motion blur on the reader exactly when the
active render camera exists and its `shutter_start` is strictly less than
its `shutter_end`; in that case the motion-blur window handed to the reader
is exactly [`shutter_start`, `shutter_end`]; and whenever motion blur is
enabled the window start is strictly below the window end. -/
theorem procedural_init_motion_blur (ext : HostEnv) (defaultOptions : Option OptionsNode)
    (renderCam : Option Camera) (node : ProcNode) :
    ((procedural_init ext defaultOptions renderCam node).motionBlur = true ↔
      ∃ c, renderCam = some c ∧ c.shutter_start < c.shutter_end) ∧
    (∀ c, renderCam = some c → c.shutter_start < c.shutter_end →
      (procedural_init ext defaultOptions renderCam node).motionStart = c.shutter_start ∧
      (procedural_init ext defaultOptions renderCam node).motionEnd = c.shutter_end) ∧
    ((procedural_init ext defaultOptions renderCam node).motionBlur = true →
      (procedural_init ext defaultOptions renderCam node).motionStart <
        (procedural_init ext defaultOptions renderCam node).motionEnd) := by
  refine ⟨?_, ?_, ?_⟩
  · cases renderCam with
    | none => simp [procedural_init_eq, initMotionBlurOn]
    | some c =>
      by_cases hc : c.shutter_start < c.shutter_end <;>
        simp [procedural_init_eq, initMotionBlurOn, hc]
  · intro c hc hlt
    subst hc
    simp [procedural_init_eq, initMotionStart, initMotionEnd, hlt]
  · cases renderCam with
    | none => simp [procedural_init_eq, initMotionBlurOn]
    | some c =>
      by_cases hc : c.shutter_start < c.shutter_end <;>
        simp [procedural_init_eq, initMotionBlurOn, initMotionStart, initMotionEnd, hc]

/-- Concrete render camera with an open shutter interval. -/
def camW : Camera := { shutter_start := 0, shutter_end := 1 }

/-- Witness for C2 at a camera with shutter interval [0, 1]. -/
theorem procedural_init_motion_blur_witness :
    (procedural_init hostW none (some camW) nodeCacheW).motionStart = camW.shutter_start ∧
    (procedural_init hostW none (some camW) nodeCacheW).motionEnd = camW.shutter_end :=
  (procedural_init_motion_blur hostW none (some camW) nodeCacheW).2.1 camW rfl (by decide)

/-- The filename `procedural_viewport` hands to the by-filename read:
search-path resolution is applied exactly in the zero-cache,
non-empty-filename case. -/
def viewportResolvedFilename (ext : HostEnv) (node : ProcNode) (universeArg : AtUniverse) :
    String :=
  if node.cache_id = 0 ∧ node.filename.isEmpty = false then
    applyProceduralSearchPath ext universeArg.options node.filename
  else node.filename

/-- Normal form of `procedural_viewport`: the two early-return paths and the
reader state built on the remaining path. -/
theorem procedural_viewport_eq (ext : HostEnv) (node : ProcNode) (universeArg : AtUniverse)
    (mode : ProcViewportMode) (params : Option ParamValueMap) :
    procedural_viewport ext node universeArg mode params =
      if node.cache_id = 0 ∧ node.filename.isEmpty = true ∧
          hasOverridesOf node.overrides = false then
        (false, none)
      else if node.cache_id = 0 ∧ node.filename.isEmpty = false ∧
          ext.isSupportedFile (viewportResolvedFilename ext node universeArg) = false then
        (false, none)
      else
        (true, some
          { proceduralParent := none
            frame := node.frame
            debug := false
            threadCount := node.threads
            motionBlur := false
            motionStart := 0
            motionEnd := 0
            targetUniverse := some universeArg
            purpose := if listMode params = true then none else some "proxy"
            convertPrimitives := if listMode params = true then false else true
            registry :=
              if listMode params = true then none
              else some { mode := mode, params := params }
            mask := none
            readCall := some
              (if node.cache_id ≠ 0 then ReadCall.byCache node.cache_id node.object_path
               else
                 ReadCall.byFile (viewportResolvedFilename ext node universeArg)
                   node.overrides node.object_path)
            nodes := [] }) := by
  by_cases hc : node.cache_id = 0 <;>
  by_cases he : node.filename.isEmpty = true <;>
  by_cases ho : hasOverridesOf node.overrides = true <;>
  by_cases hs : ext.isSupportedFile
      (applyProceduralSearchPath ext universeArg.options node.filename) = true <;>
  by_cases hl : listMode params = true <;>
    simp [procedural_viewport, viewportResolvedFilename, hc, he, ho, hs, hl, newReader,
      UsdArnoldReader.SetFrame, UsdArnoldReader.SetUniverse, UsdArnoldReader.SetThreadCount,
      UsdArnoldReader.SetConvertPrimitives, UsdArnoldReader.SetRegistry,
      UsdArnoldReader.SetPurpose, UsdArnoldReader.ReadFromCacheId,
      UsdArnoldReader.ReadFromFilename]

/-- C6: a viewport invocation in "list" sub-mode configures its reader with
convert-primitives false and installs no viewport registry and no purpose;
every other viewport invocation installs on its reader a viewport reader
registry built from the requested display mode and parameter map and sets
the reader's purpose to "proxy". -/
theorem procedural_viewport_list_mode (ext : HostEnv) (node : ProcNode)
    (universeArg : AtUniverse) (mode : ProcViewportMode) (params : Option ParamValueMap) :
    ∀ r, (procedural_viewport ext node universeArg mode params).2 = some r →
      (listMode params = true →
        r.convertPrimitives = false ∧ r.registry = none ∧ r.purpose = none) ∧
      (listMode params = false →
        r.registry = some { mode := mode, params := params } ∧ r.purpose = some "proxy") := by
  intro r hr
  rw [procedural_viewport_eq] at hr
  split at hr
  · exact absurd hr (by simp)
  split at hr
  · exact absurd hr (by simp)
  · simp only [Option.some.injEq] at hr
    subst hr
    constructor
    · intro hl; simp [hl]
    · intro hl; simp [hl]

/-- Concrete viewport universe. -/
def universeW : AtUniverse := { id := 1, options := none }

/-- Concrete procedural node with a non-zero cache id and empty filename. -/
def nodeListW : ProcNode :=
  { filename := ""
    object_path := ""
    frame := 0
    debug := false
    threads := 0
    overrides := none
    cache_id := 3 }

/-- Concrete parameter map holding the bool "list" set to true. -/
def paramsListW : ParamValueMap :=
  { frame := none
    threads := none
    mask := none
    listEntry := some true
    scope := none
    all_attributes := none }

/-- The reader the concrete viewport invocation constructs. -/
def readerListW : UsdArnoldReader :=
  ((procedural_viewport hostW nodeListW universeW ProcViewportMode.boxes
      (some paramsListW)).2).getD newReader

/-- Witness for C6 at a list-mode viewport invocation with cache id 3. -/
theorem procedural_viewport_list_mode_witness :
    readerListW.convertPrimitives = false ∧ readerListW.registry = none ∧
      readerListW.purpose = none :=
  (procedural_viewport_list_mode hostW nodeListW universeW ProcViewportMode.boxes
    (some paramsListW) readerListW rfl).1 (by decide)

/-- C7: every reader `procedural_viewport` constructs targets the separate
viewport universe handed to the entry point and has no procedural parent
set, whereas `procedural_init` sets the procedural node itself as its
reader's procedural parent. -/
theorem procedural_viewport_separate_universe (ext : HostEnv) (node : ProcNode)
    (universeArg : AtUniverse) (mode : ProcViewportMode) (params : Option ParamValueMap)
    (ext2 : HostEnv) (defaultOptions : Option OptionsNode) (renderCam : Option Camera)
    (node2 : ProcNode) :
    (∀ r, (procedural_viewport ext node universeArg mode params).2 = some r →
      r.targetUniverse = some universeArg ∧ r.proceduralParent = none) ∧
    (procedural_init ext2 defaultOptions renderCam node2).proceduralParent = some node2 := by
  constructor
  · intro r hr
    rw [procedural_viewport_eq] at hr
    split at hr
    · exact absurd hr (by simp)
    split at hr
    · exact absurd hr (by simp)
    · simp only [Option.some.injEq] at hr
      subst hr
      exact ⟨rfl, rfl⟩
  · rw [procedural_init_eq]

/-- Witness for C7 at the concrete viewport invocation and a concrete
procedural initialization. -/
theorem procedural_viewport_separate_universe_witness :
    readerListW.targetUniverse = some universeW ∧ readerListW.proceduralParent = none :=
  ((procedural_viewport_separate_universe hostW nodeListW universeW ProcViewportMode.boxes
    (some paramsListW) hostW none none nodeCacheW).1) readerListW rfl

/-- C9: with cache id zero, a viewport invocation with an empty filename and
an absent or empty overrides array returns false before constructing any
reader; with an empty filename but at least one override the read proceeds
with the empty filename; with a non-empty filename that is not supported
after search-path resolution it returns false before constructing any
reader. -/
theorem procedural_viewport_cache_zero (ext : HostEnv) (node : ProcNode)
    (universeArg : AtUniverse) (mode : ProcViewportMode) (params : Option ParamValueMap)
    (hc : node.cache_id = 0) :
    (node.filename.isEmpty = true → hasOverridesOf node.overrides = false →
      procedural_viewport ext node universeArg mode params = (false, none)) ∧
    (node.filename.isEmpty = true → hasOverridesOf node.overrides = true →
      ∃ r, procedural_viewport ext node universeArg mode params = (true, some r) ∧
        r.readCall = some (ReadCall.byFile node.filename node.overrides node.object_path)) ∧
    (node.filename.isEmpty = false →
      ext.isSupportedFile (applyProceduralSearchPath ext universeArg.options node.filename)
          = false →
      procedural_viewport ext node universeArg mode params = (false, none)) := by
  refine ⟨fun he ho => ?_, fun he ho => ?_, fun he hs => ?_⟩
  · rw [procedural_viewport_eq, if_pos ⟨hc, he, ho⟩]
  · rw [procedural_viewport_eq, if_neg (by simp [ho]), if_neg (by simp [he])]
    refine ⟨_, rfl, ?_⟩
    simp [viewportResolvedFilename, he, hc]
  · rw [procedural_viewport_eq, if_neg (by simp [he]),
      if_pos ⟨hc, he, by simpa [viewportResolvedFilename, hc, he] using hs⟩]

/-- Concrete node with cache id zero, empty filename and one override. -/
def nodeOverW : ProcNode :=
  { filename := ""
    object_path := ""
    frame := 0
    debug := false
    threads := 0
    overrides := some ["override"]
    cache_id := 0 }

/-- Witness for C9 at a zero-cache node with an empty filename and one
override: the read proceeds with the empty filename. -/
theorem procedural_viewport_cache_zero_witness :
    ∃ r, procedural_viewport hostW nodeOverW universeW ProcViewportMode.points none =
        (true, some r) ∧
      r.readCall = some (ReadCall.byFile "" (some ["override"]) "") :=
  (procedural_viewport_cache_zero hostW nodeOverW universeW ProcViewportMode.points none
    (by decide)).2.1 (by decide) (by decide)

/-- C5: `scene_load` with an unsupported filename reports an error and
returns false before any reader is constructed (no reader, no node
creation); with a supported filename it constructs a reader, reads the file
(null overrides, empty object path) and returns true. -/
theorem scene_load_supported (ext : HostEnv) (universeArg : AtUniverse) (optionsFrame : Rat)
    (filename : String) (params : Option ParamValueMap) :
    (ext.isSupportedFile filename = false →
      scene_load ext universeArg optionsFrame filename params = (false, none)) ∧
    (ext.isSupportedFile filename = true →
      ∃ r, scene_load ext universeArg optionsFrame filename params = (true, some r) ∧
        r.readCall = some (ReadCall.byFile filename none "")) := by
  constructor
  · intro h
    simp [scene_load, h]
  · intro h
    unfold scene_load
    rw [if_neg (by simp [h])]
    exact ⟨_, rfl, rfl⟩

/-- Host environment recognizing exactly the lower-case name "shot.usd",
with the constant upper-case extension "USD" and succeeding stage creation,
for concrete evaluations of the scene-format entry points. -/
def hostSupW : HostEnv :=
  { expandEnv := fun s => s
    pathJoin := fun d f => d ++ "/" ++ f
    isFileAccessible := fun _ => false
    isSupportedFile := fun f => decide (f = "shot.usd")
    getExtension := fun _ => "USD"
    stageOpenOk := fun _ => true }

/-- Witness for C5 at the supported filename "shot.usd". -/
theorem scene_load_supported_witness :
    ∃ r, scene_load hostSupW universeW 0 "shot.usd" none = (true, some r) ∧
      r.readCall = some (ReadCall.byFile "shot.usd" none "") :=
  (scene_load_supported hostSupW universeW 0 "shot.usd" none).2 (by decide)

/-- C4: when the write target filename is not supported, `scene_write`
lower-cases exactly the filename's extension and re-tests it; when the
lower-cased name is supported the write proceeds under that name after the
lower-case warning (in particular the new layer is created for the
lower-cased name); when it is still unsupported the write returns false
with only the error diagnostic emitted — no stage, layer or writer is
created. -/
theorem scene_write_extension_fallback (ext : HostEnv) (filename : String)
    (params : Option ParamValueMap) (h : ext.isSupportedFile filename = false) :
    (ext.isSupportedFile (lowerCaseExtension ext filename) = true →
      scene_write ext filename params =
        scene_write_proceed ext (lowerCaseExtension ext filename) params
          [WriteEvent.warnLowerCase (lowerCaseExtension ext filename)] ∧
      WriteEvent.createNewLayer (lowerCaseExtension ext filename) ∈
        (scene_write ext filename params).2.1) ∧
    (ext.isSupportedFile (lowerCaseExtension ext filename) = false →
      scene_write ext filename params =
        (false, [WriteEvent.errorUnsupported (lowerCaseExtension ext filename)], none)) := by
  constructor
  · intro hl
    constructor
    · simp [scene_write, h, hl]
    · simp only [scene_write, h, hl, if_true, if_false, Bool.false_eq_true]
      by_cases hs : ext.stageOpenOk (lowerCaseExtension ext filename) = false <;>
        simp [scene_write_proceed, hs]
  · intro hl
    simp [scene_write, h, hl]

/-- Witness for C4 at the filename "shot.USD", whose lower-cased extension
yields the supported "shot.usd". -/
theorem scene_write_extension_fallback_witness :
    scene_write hostSupW "shot.USD" none =
      scene_write_proceed hostSupW (lowerCaseExtension hostSupW "shot.USD") none
        [WriteEvent.warnLowerCase (lowerCaseExtension hostSupW "shot.USD")] :=
  ((scene_write_extension_fallback hostSupW "shot.USD" none (by decide)).1 (by decide)).1

/-- C8: the scene-format registration declares exactly the extensions
".usd", ".usda" and ".usdc", in that order, as the USD format's recognized
file extensions. -/
theorem scene_format_loader_extensions :
    scene_format_loader.extensions = [".usd", ".usda", ".usdc"] := rfl

/-- C10: a null user pointer yields zero nodes from `procedural_num_nodes`
and a null node from `procedural_get_node`; a non-null user pointer yields
the length of the reader's node list, and for every index below that length
`procedural_get_node` returns the i-th element of the ordered node list. -/
theorem procedural_get_node_spec (data : UsdArnoldReader) (i : Nat) :
    procedural_num_nodes none = 0 ∧
    procedural_get_node none i = none ∧
    procedural_num_nodes (some data) = data.nodes.length ∧
    (∀ h : i < data.nodes.length,
      procedural_get_node (some data) i = some (data.nodes.get ⟨i, h⟩)) := by
  refine ⟨rfl, rfl, rfl, fun h => ?_⟩
  simp [procedural_get_node, List.getElem?_eq_getElem h]

/-- Concrete reader whose node list has three entries. -/
def readerNodesW : UsdArnoldReader := { newReader with nodes := [10, 20, 30] }

/-- Witness for C10 at index 1 of a three-node reader. -/
theorem procedural_get_node_spec_witness :
    procedural_get_node (some readerNodesW) 1 = some 20 :=
  (procedural_get_node_spec readerNodesW 1).2.2.2 (by decide)
